import Mathlib

/-!
Shallow embedding of `src/expressionParser.py`: a small expression-language
engine (tokenizer, precedence-driven tree builder, lazy evaluator).

Modelling conventions:
* Python `float` and `int` values are both modelled as `ℚ`; the engine only
  produces numbers through `float(...)`, `math.factorial`, `len` and exact
  arithmetic on those, so the distinction is not observable in the claims.
* `math.pi` is the IEEE-754 double closest to pi, an exact rational.
* Library values from `datetime` and `dateutil` (`datetime.now`,
  `datetime.strptime`, `timedelta`, `relativedelta`) are modelled
  symbolically: a date is a base (parsed string plus format, or the clock)
  together with accumulated month/year/second offsets.
* Transcendental results (`math.log`, fractional powers) are rationals only
  in special cases; they are modelled by a symbolic `transc` value carrying
  the operation tag and its rational inputs.  Domain errors (`log` of a
  non-positive number, division by zero) are still raised as in Python.
* Python exceptions are modelled with `Except String`; the error strings
  follow the messages raised in the source.
* Evaluation carries a fuel parameter because a Group node re-tokenizes and
  re-builds its raw text on every evaluation, which is not structurally
  decreasing.  Any fuel at least the expression length is sufficient for the
  inputs considered here; `evaluate` supplies `expr.length + 1`.
-/

namespace ExpressionParser

/-- `class NodeType(Enum)` from the source. -/
inductive NodeType : Type where
  | STRING
  | VARIABLE
  | TOKEN_GROUP
  | OPERATOR
  | COMPARATOR
  | FUNCTION
  | CONSTANT
  | NUMBER
deriving DecidableEq, Repr

/-- `OperatorType = Enum('OperatorType', ...)` from the `operators` table. -/
inductive OperatorType : Type where
  | ADD
  | SUBTRACT
  | MULTIPLY
  | DIVIDE
  | MODULUS
  | INT_DIVIDE
  | FACTORIAL
  | EXPONENTIAL
deriving DecidableEq, Repr

/-- `ComparatorType = Enum('ComparatorType', ...)` from the `comparators` table. -/
inductive ComparatorType : Type where
  | EQUAL
  | LT
  | LTE
  | GT
  | GTE
  | NOT_EQUAL
  | OR
  | STRICT_OR
  | AND
  | STRICT_AND
deriving DecidableEq, Repr

/-- `FunctionType = Enum('FunctionType', ...)` from the `functions` table. -/
inductive FunctionType : Type where
  | TODAY
  | AS_DATE
  | SECONDS
  | MINUTES
  | HOURS
  | DAYS
  | WEEKS
  | MONTHS
  | YEARS
  | SUM
  | AVG
  | LOG10
  | NATURAL_LOG
  | LOG
  | SQUARE_ROOT
  | CHAR_LENGTH
  | NULL
  | IN
deriving DecidableEq, Repr

/-- The `operators` list: (symbol, identifier, precedence weight). -/
def operators : List (String × OperatorType × Int) :=
  [("+", .ADD, 0),
   ("-", .SUBTRACT, 0),
   ("*", .MULTIPLY, 1),
   ("/", .DIVIDE, 1),
   ("%", .MODULUS, 1),
   ("//", .INT_DIVIDE, 1),
   ("!", .FACTORIAL, 3),
   ("^", .EXPONENTIAL, 2)]

/-- `operatorMap = {o[1]: o[0] for o in operators}`, as a lookup by symbol. -/
def operatorMap (v : String) : Option OperatorType :=
  (operators.find? (fun e => e.1 == v)).map (fun e => e.2.1)

/-- `operatorWeightMap = {o[1]: o[2] for o in operators}`. -/
def operatorWeightMap (v : String) : Option Int :=
  (operators.find? (fun e => e.1 == v)).map (fun e => e.2.2)

/-- The `comparators` list: (symbol, identifier). -/
def comparators : List (String × ComparatorType) :=
  [("==", .EQUAL),
   ("<", .LT),
   ("<=", .LTE),
   (">", .GT),
   (">=", .GTE),
   ("!=", .NOT_EQUAL),
   ("|", .OR),
   ("||", .STRICT_OR),
   ("&", .AND),
   ("&&", .STRICT_AND)]

/-- `comparatorMap = {c[1]: c[0] for c in comparators}`. -/
def comparatorMap (v : String) : Option ComparatorType :=
  (comparators.find? (fun e => e.1 == v)).map (fun e => e.2)

/-- The `functions` list: (identifier, name). Lookup is by name. -/
def functions : List (String × FunctionType) :=
  [("today", .TODAY),
   ("asDate", .AS_DATE),
   ("seconds", .SECONDS),
   ("minutes", .MINUTES),
   ("hours", .HOURS),
   ("days", .DAYS),
   ("weeks", .WEEKS),
   ("months", .MONTHS),
   ("years", .YEARS),
   ("sum", .SUM),
   ("avg", .AVG),
   ("log10", .LOG10),
   ("ln", .NATURAL_LOG),
   ("log", .LOG),
   ("sqrt", .SQUARE_ROOT),
   ("nchar", .CHAR_LENGTH),
   ("isNull", .NULL),
   ("in", .IN)]

/-- `functionMap = {v: k for k, v in functions}`. -/
def functionMap (v : String) : Option FunctionType :=
  (functions.find? (fun e => e.1 == v)).map (fun e => e.2)

/--
The `Node` class hierarchy, collapsed to one shape: every Python node
carries `type` (a class attribute, `None` on the bare `Node` base class),
`value`, two optional child slots `node_a`/`node_b`, and — for
`FunctionNode` — an `arguments` list.  The operator weight and the resolved
operator/comparator/function identifiers are recovered from `value` through
the registry maps, exactly as the constructors store them.
-/
inductive PNode : Type where
  | mk (ntype : Option NodeType) (value : Option String)
       (node_a : Option PNode) (node_b : Option PNode)
       (arguments : List PNode)

def PNode.ntype : PNode → Option NodeType
  | .mk t _ _ _ _ => t

def PNode.value : PNode → Option String
  | .mk _ v _ _ _ => v

def PNode.node_a : PNode → Option PNode
  | .mk _ _ a _ _ => a

def PNode.node_b : PNode → Option PNode
  | .mk _ _ _ b _ => b

def PNode.arguments : PNode → List PNode
  | .mk _ _ _ _ args => args

/-- `self.node_a = x` -/
def PNode.withNodeA : PNode → Option PNode → PNode
  | .mk t v _ b args, a => .mk t v a b args

/-- `self.node_b = x` -/
def PNode.withNodeB : PNode → Option PNode → PNode
  | .mk t v a _ args, b => .mk t v a b args

/-- `self.arguments = xs` -/
def PNode.withArguments : PNode → List PNode → PNode
  | .mk t v a b _, args => .mk t v a b args

/-- `self.weight`, as stored by `OperatorNode.__init__` from
`operatorWeightMap[value]`; the class default is `0`. -/
def PNode.weight (n : PNode) : Int :=
  match n.value with
  | some v => (operatorWeightMap v).getD 0
  | none => 0

/-- `Node()` : the empty base node used to seed the tree builder. -/
def emptyNode : PNode := .mk none none none none []

/-- The base of a modelled `datetime` value: either `strptime(s, fmt)` or
`datetime.now()` (the wall clock, kept symbolic). -/
inductive DateBase : Type where
  | parsedDate (s fmt : String)
  | clockNow
deriving DecidableEq, Repr

/--
Run-time values (`PassedData` plus the library types the evaluator can
produce).  `vnone` is the Python `None` sentinel.  `dateVal` is a modelled
`datetime` together with accumulated `relativedelta`/`timedelta` offsets;
`tdelta` is a `timedelta` in seconds; `rdelta` is a `relativedelta` in
months and years; `transc` is a symbolic transcendental result.
-/
inductive Value : Type where
  | vnone
  | num (q : ℚ)
  | vstr (s : String)
  | vbool (b : Bool)
  | dateVal (base : DateBase) (months years seconds : ℚ)
  | tdelta (seconds : ℚ)
  | rdelta (months years : ℚ)
  | transc (tag : String) (args : List ℚ)
deriving DecidableEq, Repr

/-! Kernel-reducible rational arithmetic.  The Batteries operations on `ℚ`
(`Rat.add`, `Rat.mul`, ...) are marked irreducible, which would block
evaluating the embedding inside proofs, so the operations needed here are
reimplemented through `mkRat`.  `mkRat` normalizes, so the results are
ordinary, fully reduced `ℚ` values and agree with the standard ones. -/

def qOfInt (n : Int) : ℚ := mkRat n 1

def qOfNat (n : Nat) : ℚ := mkRat (Int.ofNat n) 1

def qAdd (a b : ℚ) : ℚ := mkRat (a.num * b.den + b.num * a.den) (a.den * b.den)

def qNeg (a : ℚ) : ℚ := mkRat (-a.num) a.den

def qSub (a b : ℚ) : ℚ := qAdd a (qNeg b)

def qMul (a b : ℚ) : ℚ := mkRat (a.num * b.num) (a.den * b.den)

def qInv (a : ℚ) : ℚ := mkRat (Int.sign a.num * (a.den : Int)) a.num.natAbs

def qDiv (a b : ℚ) : ℚ := qMul a (qInv b)

def qAbs (a : ℚ) : ℚ := mkRat (Int.ofNat a.num.natAbs) a.den

/-- Floor of a rational (the denominator is positive by invariant). -/
def qFloor (a : ℚ) : Int := Int.fdiv a.num (Int.ofNat a.den)

def qPowNat (a : ℚ) (n : Nat) : ℚ := mkRat (a.num ^ n) (a.den ^ n)

def qZpow (a : ℚ) (z : Int) : ℚ :=
  if 0 ≤ z then qPowNat a z.toNat else qInv (qPowNat a z.natAbs)

def qCompare (a b : ℚ) : Ordering :=
  if a.num * b.den < b.num * a.den then .lt
  else if a.num * b.den = b.num * a.den then .eq
  else .gt

/-- Python truthiness (`bool(v)`), used by `or` / `and`. -/
def truthy : Value → Bool
  | .vnone => false
  | .num q => q != 0
  | .vstr s => s != ""
  | .vbool b => b
  | .dateVal _ _ _ _ => true
  | .tdelta s => s != 0
  | .rdelta _ _ => true
  | .transc _ _ => true

/-- Numeric view: Python arithmetic treats `bool` as an integer. -/
def asNum : Value → Option ℚ
  | .num q => some q
  | .vbool b => some (if b then 1 else 0)
  | _ => none

/-- Python `==` on the modelled values: mixed-type comparisons are `False`
rather than errors; numbers and booleans compare numerically. -/
def pyEq : Value → Value → Bool
  | .vnone, .vnone => true
  | .vstr a, .vstr b => a == b
  | .dateVal b1 m1 y1 s1, .dateVal b2 m2 y2 s2 =>
      b1 == b2 && m1 == m2 && y1 == y2 && s1 == s2
  | .tdelta a, .tdelta b => a == b
  | .rdelta m1 y1, .rdelta m2 y2 => m1 == m2 && y1 == y2
  | .transc t1 a1, .transc t2 a2 => t1 == t2 && a1 == a2
  | a, b =>
      match asNum a, asNum b with
      | some x, some y => x == y
      | _, _ => false

/-- Lexicographic comparison of character lists by code point. -/
def charListCompare : List Char → List Char → Ordering
  | [], [] => .eq
  | [], _ :: _ => .lt
  | _ :: _, [] => .gt
  | a :: as, b :: bs =>
      if a < b then .lt else if b < a then .gt else charListCompare as bs

/-- Lexicographic comparison of strings by character code. -/
def strCompare (a b : String) : Ordering :=
  charListCompare a.data b.data

/-- Python ordering (`<`, `<=`, `>`, `>=`) where it is defined. -/
def pyCmp : Value → Value → Option Ordering
  | .vstr a, .vstr b => some (strCompare a b)
  | .tdelta a, .tdelta b => some (qCompare a b)
  | a, b =>
      match asNum a, asNum b with
      | some x, some y => some (qCompare x y)
      | _, _ => none

def cmpError : Except String Value :=
  .error "TypeError: comparison not supported between operand types"

def pyLt (a b : Value) : Except String Value :=
  match pyCmp a b with
  | some o => .ok (.vbool (o == .lt))
  | none => cmpError

def pyLe (a b : Value) : Except String Value :=
  match pyCmp a b with
  | some o => .ok (.vbool (o != .gt))
  | none => cmpError

def pyGt (a b : Value) : Except String Value :=
  match pyCmp a b with
  | some o => .ok (.vbool (o == .gt))
  | none => cmpError

def pyGe (a b : Value) : Except String Value :=
  match pyCmp a b with
  | some o => .ok (.vbool (o != .lt))
  | none => cmpError

/-- Python `+` on the modelled values. -/
def pyAdd (a b : Value) : Except String Value :=
  match a, b with
  | .vstr s1, .vstr s2 => .ok (.vstr (s1 ++ s2))
  | .dateVal base m y s, .tdelta t => .ok (.dateVal base m y (qAdd s t))
  | .dateVal base m y s, .rdelta dm dy =>
      .ok (.dateVal base (qAdd m dm) (qAdd y dy) s)
  | .tdelta t, .dateVal base m y s => .ok (.dateVal base m y (qAdd s t))
  | .rdelta dm dy, .dateVal base m y s =>
      .ok (.dateVal base (qAdd m dm) (qAdd y dy) s)
  | .tdelta t1, .tdelta t2 => .ok (.tdelta (qAdd t1 t2))
  | .rdelta m1 y1, .rdelta m2 y2 => .ok (.rdelta (qAdd m1 m2) (qAdd y1 y2))
  | _, _ =>
      match asNum a, asNum b with
      | some x, some y => .ok (.num (qAdd x y))
      | _, _ => .error "TypeError: unsupported operand type(s) for +"

/-- Python `-` on the modelled values. -/
def pySub (a b : Value) : Except String Value :=
  match a, b with
  | .dateVal base m y s, .tdelta t => .ok (.dateVal base m y (qSub s t))
  | .dateVal base m y s, .rdelta dm dy =>
      .ok (.dateVal base (qSub m dm) (qSub y dy) s)
  | .tdelta t1, .tdelta t2 => .ok (.tdelta (qSub t1 t2))
  | _, _ =>
      match asNum a, asNum b with
      | some x, some y => .ok (.num (qSub x y))
      | _, _ => .error "TypeError: unsupported operand type(s) for -"

/-- Python `*` on the modelled values.  String repetition by an `int` is not
modelled (the engine multiplies with float operands from `NumberNode`, and
the built-in `-1 *` only meets numbers and durations in the claims). -/
def pyMul (a b : Value) : Except String Value :=
  match a, b with
  | .tdelta t, _ =>
      match asNum b with
      | some y => .ok (.tdelta (qMul t y))
      | none => .error "TypeError: unsupported operand type(s) for *"
  | _, .tdelta t =>
      match asNum a with
      | some x => .ok (.tdelta (qMul x t))
      | none => .error "TypeError: unsupported operand type(s) for *"
  | _, _ =>
      match asNum a, asNum b with
      | some x, some y => .ok (.num (qMul x y))
      | _, _ => .error "TypeError: unsupported operand type(s) for *"

/-- Python `/`. -/
def pyDiv (a b : Value) : Except String Value :=
  match asNum a, asNum b with
  | some x, some y =>
      if y == 0 then .error "ZeroDivisionError: float division by zero"
      else .ok (.num (qDiv x y))
  | _, _ => .error "TypeError: unsupported operand type(s) for /"

/-- Python `%` on numbers: the result has the sign of the divisor,
`a % b = a - b * floor(a / b)`. -/
def pyMod (a b : Value) : Except String Value :=
  match asNum a, asNum b with
  | some x, some y =>
      if y == 0 then .error "ZeroDivisionError: float modulo"
      else .ok (.num (qSub x (qMul y (qOfInt (qFloor (qDiv x y))))))
  | _, _ => .error "TypeError: unsupported operand type(s) for %"

/-- Python `//` on numbers: `floor(a / b)`. -/
def pyIntDiv (a b : Value) : Except String Value :=
  match asNum a, asNum b with
  | some x, some y =>
      if y == 0 then .error "ZeroDivisionError: float floor division by zero"
      else .ok (.num (qOfInt (qFloor (qDiv x y))))
  | _, _ => .error "TypeError: unsupported operand type(s) for //"

/-- Python `**` on numbers.  Integer exponents are exact on `ℚ`; a
fractional exponent leaves the rational field and is kept symbolic. -/
def pyPow (a b : Value) : Except String Value :=
  match asNum a, asNum b with
  | some x, some y =>
      if y.den == 1 then
        if 0 ≤ y.num then .ok (.num (qPowNat x y.num.toNat))
        else if x == 0 then
          .error "ZeroDivisionError: 0.0 cannot be raised to a negative power"
        else .ok (.num (qZpow x y.num))
      else .ok (.transc "pow" [x, y])
  | _, _ => .error "TypeError: unsupported operand type(s) for **"

/-- Python `abs(v)` as used by the unary `+` branch of `OperatorNode.exec`. -/
def pyAbs (v : Value) : Except String Value :=
  match v with
  | .tdelta t => .ok (.tdelta (qAbs t))
  | _ =>
      match asNum v with
      | some x => .ok (.num (qAbs x))
      | none => .error "TypeError: bad operand type for abs()"

/-- `math.factorial(v)` as used by the `!` branch: defined on non-negative
integral numbers (`factorial(5.0) = 120`), an error otherwise. -/
def pyFactorial (v : Value) : Except String Value :=
  match asNum v with
  | some q =>
      if q.den == 1 then
        if 0 ≤ q.num then .ok (.num (qOfNat (Nat.factorial q.num.toNat)))
        else .error "ValueError: factorial() not defined for negative values"
      else .error "ValueError: factorial() only accepts integral values"
  | none => .error "TypeError: factorial() argument must be a number"

/-- The exact rational value of the IEEE-754 double `math.pi`
(`7074237752028440 * 2 ^ -51`). -/
def piRat : ℚ := mkRat 884279719003555 281474976710656

/-! ### Tokenizer

`tokenRegex` is an ordered alternation of eight capture groups, scanned with
`re.finditer(..., re.MULTILINE | re.IGNORECASE)`.  The scanner below walks
the character list, trying the alternatives in group order at each position
and skipping one character when none matches (no alternative can match the
empty string, and `finditer` yields non-overlapping leftmost matches).  The
single-character lookbehinds of groups 1 and 2 are provided by threading the
previously consumed character.
-/

/-- `[a-z]` under `re.IGNORECASE`: any ASCII letter. -/
def isPyAlpha (c : Char) : Bool := c.isLower || c.isUpper

/-- `[a-z_0-9]` under `re.IGNORECASE`. -/
def isIdentChar (c : Char) : Bool := isPyAlpha c || c.isDigit || c == '_'

/-- Python `\s` (ASCII). -/
def isPySpace (c : Char) : Bool :=
  c == ' ' || c == '\t' || c == '\n' || c == '\r' || c == '\x0b' || c == '\x0c'

/-- `[^)(]` : any character other than a parenthesis. -/
def isNonParen (c : Char) : Bool := c != '(' && c != ')'

/-- The character class of group 8, `[^a-z0-9\[\]\(\)\"\s]`
(with `IGNORECASE` the negation also excludes uppercase letters). -/
def isOpChar (c : Char) : Bool :=
  !(isPyAlpha c) && !(c.isDigit) && c != '[' && c != ']' &&
  c != '(' && c != ')' && c != '"' && !(isPySpace c)

/-- Innermost parenthesis level of group 3: `\([^)(]*\)` — an opening
parenthesis, a possibly empty run of non-parenthesis characters, a closing
parenthesis.  Returns the rest of the input after the match. -/
def matchG3 : List Char → Option (List Char)
  | [] => none
  | c :: t =>
      if c = '(' && (t.dropWhile isNonParen).headD 'x' = ')' then
        some (t.dropWhile isNonParen).tail
      else none

/-- Middle parenthesis level of group 3: `\((?:[^)(]+|\([^)(]*\))*\)`.
`g2Chunks` consumes the starred body greedily: each iteration takes either a
maximal nonempty run of non-parenthesis characters or an innermost group.
Each iteration consumes at least one character, so a fuel of the input
length is always sufficient; fuel is used only to make the recursion
structural (and hence kernel-executable). -/
def g2Chunks (fuel : Nat) (cs : List Char) : List Char :=
  match fuel with
  | 0 => cs
  | fuel + 1 =>
      match cs with
      | [] => []
      | c :: t =>
          if isNonParen c then g2Chunks fuel (t.dropWhile isNonParen)
          else
            match matchG3 (c :: t) with
            | some r => g2Chunks fuel r
            | none => c :: t

def matchG2 : List Char → Option (List Char)
  | [] => none
  | c :: t =>
      if c = '(' && (g2Chunks (t.length + 1) t).headD 'x' = ')' then
        some (g2Chunks (t.length + 1) t).tail
      else none

/-- Outermost parenthesis level of group 3. -/
def g1Chunks (fuel : Nat) (cs : List Char) : List Char :=
  match fuel with
  | 0 => cs
  | fuel + 1 =>
      match cs with
      | [] => []
      | c :: t =>
          if isNonParen c then g1Chunks fuel (t.dropWhile isNonParen)
          else
            match matchG2 (c :: t) with
            | some r => g1Chunks fuel r
            | none => c :: t

/-- Group 3 of `tokenRegex`, matched at the current position; returns the
matched text and the rest.  The pattern supports three levels of nesting;
inputs that would force the regex engine to backtrack past a too-deep inner
group are not exercised by this development. -/
def matchGroupAlt (cs : List Char) : Option (List Char × List Char) :=
  match cs with
  | [] => none
  | c :: t =>
      if c = '(' && (g1Chunks (t.length + 1) t).headD 'x' = ')' then
        let r := (g1Chunks (t.length + 1) t).tail
        some (cs.take (cs.length - r.length), r)
      else none

/-- Group 1: `(?<=\").+(?=\")` — requires a quote immediately before the
current position, then greedily matches up to the last later quote on the
line (`.` does not cross a newline). -/
def matchStringAlt (prev : Option Char) (cs : List Char) :
    Option (List Char × List Char) :=
  if prev == some '"' then
    let pre := cs.takeWhile (fun c => c != '\n')
    match pre.reverse.findIdx? (fun c => c == '"') with
    | some revIdx =>
        let e := pre.length - 1 - revIdx
        if 1 ≤ e then some (cs.take e, cs.drop e) else none
    | none => none
  else none

/-- Group 2: `(?<=\[)[a-z_]+(?=\])`. -/
def matchVariableAlt (prev : Option Char) (cs : List Char) :
    Option (List Char × List Char) :=
  if prev == some '[' then
    let run := cs.takeWhile (fun c => isPyAlpha c || c == '_')
    if 1 ≤ run.length then
      match cs.drop run.length with
      | ']' :: _ => some (run, cs.drop run.length)
      | _ => none
    else none
  else none

/-- Group 4: the comparator alternation, tried left to right. -/
def comparatorAlts : List (List Char) :=
  [['=', '='], ['!', '='], ['<', '='], ['<'], ['>', '='], ['>'],
   ['|', '|'], ['|'], ['&', '&'], ['&']]

def matchComparatorAlt (cs : List Char) : Option (List Char × List Char) :=
  comparatorAlts.findSome? (fun alt =>
    if alt.isPrefixOf cs then some (alt, cs.drop alt.length) else none)

/-- Group 5: `[a-z][a-z_0-9]+(?=\()` — an identifier of length at least two
immediately followed by an opening parenthesis. -/
def matchFunctionAlt (cs : List Char) : Option (List Char × List Char) :=
  match cs with
  | c :: _ =>
      if isPyAlpha c then
        let run := cs.takeWhile isIdentChar
        if 2 ≤ run.length then
          match cs.drop run.length with
          | '(' :: _ => some (run, cs.drop run.length)
          | _ => none
        else none
      else none
  | [] => none

/-- Group 6: `[a-z][a-z_0-9]+` — a bare identifier of length at least two. -/
def matchConstantAlt (cs : List Char) : Option (List Char × List Char) :=
  match cs with
  | c :: _ =>
      if isPyAlpha c then
        let run := cs.takeWhile isIdentChar
        if 2 ≤ run.length then some (run, cs.drop run.length) else none
      else none
  | [] => none

/-- Group 7: `[0-9.]+`. -/
def matchNumberAlt (cs : List Char) : Option (List Char × List Char) :=
  let run := cs.takeWhile (fun c => c.isDigit || c == '.')
  if 1 ≤ run.length then some (run, cs.drop run.length) else none

/-- Group 8: `[^a-z0-9\[\]\(\)\"\s]+`. -/
def matchOperatorAlt (cs : List Char) : Option (List Char × List Char) :=
  let run := cs.takeWhile isOpChar
  if 1 ≤ run.length then some (run, cs.drop run.length) else none

/-- Try the eight alternatives of `tokenRegex` in group order at the current
position.  Returns the group number, the matched text, and the rest. -/
def tryAlts (prev : Option Char) (cs : List Char) :
    Option (Nat × List Char × List Char) :=
  match matchStringAlt prev cs with
  | some (m, r) => some (1, m, r)
  | none =>
  match matchVariableAlt prev cs with
  | some (m, r) => some (2, m, r)
  | none =>
  match matchGroupAlt cs with
  | some (m, r) => some (3, m, r)
  | none =>
  match matchComparatorAlt cs with
  | some (m, r) => some (4, m, r)
  | none =>
  match matchFunctionAlt cs with
  | some (m, r) => some (5, m, r)
  | none =>
  match matchConstantAlt cs with
  | some (m, r) => some (6, m, r)
  | none =>
  match matchNumberAlt cs with
  | some (m, r) => some (7, m, r)
  | none =>
  match matchOperatorAlt cs with
  | some (m, r) => some (8, m, r)
  | none => none

/-- `re.finditer(tokenRegex, expression)`: the list of (group number,
matched text) pairs, in order.  `prev` is the character before the current
position (for the lookbehinds); matches are non-overlapping and the scan
advances one character when nothing matches. -/
def scanTokens (fuel : Nat) (prev : Option Char) (cs : List Char) :
    List (Nat × String) :=
  match fuel with
  | 0 => []
  | fuel + 1 =>
      match cs with
      | [] => []
      | c :: t =>
          match tryAlts prev (c :: t) with
          | some (g, m, _) =>
              if 1 ≤ m.length then
                (g, String.mk m) ::
                  scanTokens fuel m.getLast? ((c :: t).drop m.length)
              else
                -- unreachable: every alternative consumes at least one character
                scanTokens fuel (some c) t
          | none => scanTokens fuel (some c) t

/-- `nodeTypes`: the map from regex group number to node kind. -/
def nodeTypes (g : Nat) : Option NodeType :=
  match g with
  | 1 => some .STRING
  | 2 => some .VARIABLE
  | 3 => some .TOKEN_GROUP
  | 4 => some .COMPARATOR
  | 5 => some .FUNCTION
  | 6 => some .CONSTANT
  | 7 => some .NUMBER
  | 8 => some .OPERATOR
  | _ => none

/-- `re.sub('^\"|\"$', '', value)` in `StringNode.__init__`: one leading and
one trailing quote character are removed when present. -/
def stripQuotes (s : String) : String :=
  let l1 := match s.data with
            | '"' :: t => t
            | l => l
  let l2 := match l1.reverse with
            | '"' :: t => t.reverse
            | _ => l1
  String.mk l2

/-- `re.sub('^\(+|\)+$', '', value)` applied to a group token in
`extractNodes`: every leading '(' and every trailing ')' is removed. -/
def stripGroupParens (s : String) : String :=
  String.mk (((s.data.dropWhile (fun c => c == '(')).reverse.dropWhile
    (fun c => c == ')')).reverse)

/-- `createToken`: builds the node for a token, running the per-class
constructor validation (`OperatorNode.__init__` etc. raise on a symbol that
is missing from the registry). -/
def createToken (t : NodeType) (v : String) : Except String PNode :=
  match t with
  | .STRING => .ok (.mk (some .STRING) (some (stripQuotes v)) none none [])
  | .VARIABLE => .ok (.mk (some .VARIABLE) (some v) none none [])
  | .TOKEN_GROUP => .ok (.mk (some .TOKEN_GROUP) (some v) none none [])
  | .COMPARATOR =>
      match comparatorMap v with
      | some _ => .ok (.mk (some .COMPARATOR) (some v) none none [])
      | none => .error ("Invalid Comparator: " ++ v)
  | .OPERATOR =>
      match operatorMap v with
      | some _ => .ok (.mk (some .OPERATOR) (some v) none none [])
      | none => .error ("Invalid Operator: " ++ v)
  | .FUNCTION =>
      match functionMap v with
      | some _ => .ok (.mk (some .FUNCTION) (some v) none none [])
      | none => .error ("Invalid Function: " ++ v)
  | .CONSTANT => .ok (.mk (some .CONSTANT) (some v) none none [])
  | .NUMBER => .ok (.mk (some .NUMBER) (some v) none none [])

/-- `extractNodes`: scan the expression, map each match to a node.  A group
token is stripped of its leading and trailing parenthesis runs and dropped
entirely when the remaining text is empty.  A constructor failure aborts. -/
def extractNodes (expression : String) : Except String (List PNode) :=
  (scanTokens (expression.data.length + 1) none expression.data).foldlM
    (fun acc gv =>
      match nodeTypes gv.1 with
      | none => .ok acc
      | some nt =>
          if nt = NodeType.TOKEN_GROUP then
            let v := stripGroupParens gv.2
            if v = "" then .ok acc
            else (createToken nt v).map (fun n => acc ++ [n])
          else (createToken nt gv.2).map (fun n => acc ++ [n]))
    []

/-! ### Group splitting (function argument lists)

`TokenGroupNode.split` uses `re.split(r",\s*(?![^()]*\))", self.value)`:
the text is split at each comma (plus following whitespace) whose negative
lookahead holds, i.e. at a comma from which the next parenthesis character
looking right is not a closing one.
-/

/-- Does `[^()]*\)` match looking right: is the first parenthesis character
from here a ')'? -/
def closeParenFirst : List Char → Bool
  | [] => false
  | c :: t =>
      if c = '(' then false
      else if c = ')' then true
      else closeParenFirst t

/-- `re.split(r",\s*(?![^()]*\))", s)` : the separator is a comma followed
by optional whitespace, provided no closing parenthesis is reachable over
non-parenthesis characters. -/
def splitCommaAux (fuel : Nat) : List Char → List Char → List String
  | cs, acc =>
      match fuel with
      | 0 => [String.mk acc.reverse]
      | fuel + 1 =>
          match cs with
          | [] => [String.mk acc.reverse]
          | c :: t =>
              if c = ',' && !(closeParenFirst t) then
                String.mk acc.reverse ::
                  splitCommaAux fuel (t.dropWhile isPySpace) []
              else splitCommaAux fuel t (c :: acc)

/-- `TokenGroupNode.split`: each piece becomes a fresh `TokenGroupNode`
(no parenthesis stripping happens here). -/
def groupSplit (n : PNode) : List PNode :=
  (splitCommaAux ((n.value.getD "").data.length + 1) (n.value.getD "").data []).map
    (fun v => PNode.mk (some .TOKEN_GROUP) (some v) none none [])

/-! ### Tree builder -/

/-- Is this optional child a `FunctionNode`?  Mirrors the Python test
`base.node_b and base.node_b.type is NodeType.FUNCTION` (a node object is
always truthy). -/
def optIsFunction : Option PNode → Bool
  | some nn => nn.ntype = some NodeType.FUNCTION
  | none => false

/--
`createExpressionTree(base, nodes)`.

The Python function mutates `base`/`node` and destructively pops from the
shared `nodes` list; every call returns only when the list has been fully
drained, so after an inner recursive call the tail position
`return createExpressionTree(base, nodes)` sees an empty list and returns
`base` unchanged.  The functional rendering therefore returns the updated
`base` directly in the operator rotation branch and in the comparator
branch (a recursive call on `[]` would be the identity).

In the comparator branch the Python code wires `node.node_a = base` and
`node.node_b = <recursively built right side>` but never re-roots
(`base` is unchanged and is what the final line returns), so the comparator
node itself is discarded; the recursion is kept so that errors raised while
building the right side still propagate.  Note also that the right side
recursion is seeded with the next popped token (`nodes.pop(0)`), not with a
fresh empty node, unless no token remains.
-/
def createExpressionTree (base : PNode) (nodes : List PNode) :
    Except String PNode :=
  match nodes with
  | [] => .ok base
  | node :: rest =>
      if node.ntype = some NodeType.OPERATOR then
        if base.ntype = some NodeType.OPERATOR ∧ node.weight > base.weight then do
          let sub ← createExpressionTree (node.withNodeA base.node_b) rest
          .ok (base.withNodeB (some sub))
        else
          createExpressionTree (node.withNodeA (some base)) rest
      else if node.ntype = some NodeType.COMPARATOR then
        match rest with
        | [] =>
            -- `nodes.pop(0) if len(nodes) > 0 else Node()` with no remaining
            -- token: the right side is a bare empty node.
            let _discarded := (node.withNodeA (some base)).withNodeB (some emptyNode)
            .ok base
        | r0 :: rrest => do
            let sub ← createExpressionTree r0 rrest
            let _discarded := (node.withNodeA (some base)).withNodeB (some sub)
            .ok base
      else if node.ntype = some NodeType.TOKEN_GROUP then do
        let base' ←
          if optIsFunction base.node_b then
            .ok (base.withNodeB (base.node_b.map
              (fun nb => nb.withArguments (groupSplit node))))
          else if optIsFunction base.node_a then
            .ok (base.withNodeA (base.node_a.map
              (fun na => na.withArguments (groupSplit node))))
          else if base.ntype = some NodeType.FUNCTION then
            .ok (base.withArguments (groupSplit node))
          else if base.node_a.isNone then
            .ok (base.withNodeA (some node))
          else if base.node_b.isNone then
            .ok (base.withNodeB (some node))
          else
            .error "Invalid Syntax"
        createExpressionTree base' rest
      else if base.value.isNone then
        createExpressionTree node rest
      else if base.node_a.isNone then
        createExpressionTree (base.withNodeA (some node)) rest
      else if base.node_b.isNone then
        createExpressionTree (base.withNodeB (some node)) rest
      else
        .error "Invalid Syntax"

/-- Value of a digit character. -/
def digitVal (c : Char) : Nat := c.toNat - '0'.toNat

/-- Accumulate a decimal digit string. -/
def digitsToNat (cs : List Char) : Nat :=
  cs.foldl (fun acc c => acc * 10 + digitVal c) 0

/--
`float(self.value)` for the texts a `NumberNode` can hold: the token class
`[0-9.]+` allows digits and dots, and Python accepts at most one dot with
at least one digit (`float("5.")` is 5.0, `float(".5")` is 0.5,
`float("1.2.3")` and `float(".")` raise ValueError).  Texts outside that
class never reach this function through the tokenizer and are rejected.
-/
def parseFloat (s : String) : Except String ℚ :=
  let cs := s.data
  if cs.isEmpty then
    .error ("ValueError: could not convert string to float: " ++ s)
  else if !(cs.all (fun c => c.isDigit || c == '.')) then
    .error ("ValueError: could not convert string to float: " ++ s)
  else if 2 ≤ (cs.filter (fun c => c == '.')).length then
    .error ("ValueError: could not convert string to float: " ++ s)
  else if cs.all (fun c => c == '.') then
    .error ("ValueError: could not convert string to float: " ++ s)
  else
    let intPart := cs.takeWhile (fun c => c != '.')
    let fracPart := (cs.dropWhile (fun c => c != '.')).drop 1
    .ok (mkRat
      (Int.ofNat (digitsToNat intPart * 10 ^ fracPart.length + digitsToNat fracPart))
      (10 ^ fracPart.length))

/-! ### Evaluator

Python `exec()` returns a closure which is then called with the environment
as keyword arguments; the two stages are merged here into one function from
node and environment to a value.  The environment is the keyword-argument
dictionary (`kwargs`), modelled as an association list.
-/

/-- The evaluation environment (`kwargs`). -/
def Env : Type := List (String × Value)

/-- `kwargs.get(name, None)` without the default. -/
def envGet (env : Env) (k : String) : Option Value :=
  ((env : List (String × Value)).find? (fun p => p.1 == k)).map (fun p => p.2)

/-- `sum(map(lambda a: a.exec()(**kwargs), arguments))`: Python `sum` starts
from `0` and folds `+` over the lazily evaluated arguments. -/
def sumArgs (ev : PNode → Except String Value) (acc : Value) :
    List PNode → Except String Value
  | [] => .ok acc
  | a :: rest => do
      let v ← ev a
      let acc' ← pyAdd acc v
      sumArgs ev acc' rest

/-- `x in map(lambda a: a.exec()(**kwargs), arguments[1:])`: the map object
is consumed lazily, comparing with `==`, stopping at the first hit. -/
def memberArgs (ev : PNode → Except String Value) (v : Value) :
    List PNode → Except String Value
  | [] => .ok (.vbool false)
  | a :: rest => do
      let w ← ev a
      if pyEq v w then .ok (.vbool true) else memberArgs ev v rest

/--
`Node.exec` and its overrides, merged over the node kinds.  `fuel` bounds
the recursion depth: a `TokenGroupNode` re-tokenizes and re-builds its raw
text on every evaluation, which is not structurally decreasing.  The
"fuel exhausted" error does not occur at the fuel budgets used below.
-/
def evalNode (fuel : Nat) (env : Env) (n : PNode) : Except String Value :=
  match fuel with
  | 0 => .error "fuel exhausted"
  | fuel + 1 =>
    match n.ntype with
    | none =>
        -- `Node.exec`
        .error "Can not execute on an empty node"
    | some .STRING =>
        -- `StringNode.exec`: `str(self.value)` (quotes were stripped at
        -- construction); `str(None)` is the text "None".
        .ok (.vstr (n.value.getD "None"))
    | some .NUMBER =>
        -- `NumberNode.exec`: `float(self.value)`
        match n.value with
        | some v => (parseFloat v).map .num
        | none => .error "TypeError: float() argument must be a string or a number"
    | some .CONSTANT =>
        -- `ConstantNode.exec`
        if n.value = some "pi" then .ok (.num piRat)
        else .error ((n.value.getD "None") ++ " is not a defined constant")
    | some .VARIABLE =>
        -- `VariableNode.exec`: `kwargs.get(self.value, None)`
        match n.value with
        | some v => .ok ((envGet env v).getD .vnone)
        | none => .ok .vnone
    | some .TOKEN_GROUP =>
        -- `TokenGroupNode.exec`: re-tokenize, re-build, evaluate.
        match n.value with
        | none => .error "TypeError: expected string or bytes-like object"
        | some v => do
            let ns ← extractNodes v
            let t ← createExpressionTree emptyNode ns
            evalNode fuel env t
    | some .OPERATOR =>
        match n.node_a, n.node_b with
        | none, none => .error "Both targets on opperand are None"
        | oa, ob =>
          match operatorMap (n.value.getD "") with
          | none => .error "AttributeError: operator"
          | some op =>
            if op = .ADD then
              match oa, ob with
              | none, some b => do
                  -- unary `+` : absolute value
                  let vb ← evalNode fuel env b
                  pyAbs vb
              | some a, some b => do
                  let va ← evalNode fuel env a
                  let vb ← evalNode fuel env b
                  pyAdd va vb
              | some _, none =>
                  .error "AttributeError: NoneType object has no attribute"
              | none, none => .error "Both targets on opperand are None"
            else if op = .SUBTRACT then
              match oa with
              | none =>
                  match ob with
                  | some b => do
                      -- unary `-` : `-1 * value`
                      let vb ← evalNode fuel env b
                      pyMul (.num (-1)) vb
                  | none => .error "Both targets on opperand are None"
              | some a =>
                  if a.value.isNone then
                    match ob with
                    | some b => do
                        let vb ← evalNode fuel env b
                        pyMul (.num (-1)) vb
                    | none =>
                        .error "AttributeError: NoneType object has no attribute"
                  else
                    match ob with
                    | some b => do
                        let va ← evalNode fuel env a
                        let vb ← evalNode fuel env b
                        pySub va vb
                    | none =>
                        .error "AttributeError: NoneType object has no attribute"
            else if op = .FACTORIAL then
              match ob with
              | none =>
                  match oa with
                  | some a => do
                      let va ← evalNode fuel env a
                      pyFactorial va
                  | none => .error "Both targets on opperand are None"
              | some _ => .error "Factorial Operand can not have second target"
            else
              match oa, ob with
              | some a, some b => do
                  let va ← evalNode fuel env a
                  let vb ← evalNode fuel env b
                  if op = .MULTIPLY then pyMul va vb
                  else if op = .DIVIDE then pyDiv va vb
                  else if op = .MODULUS then pyMod va vb
                  else if op = .INT_DIVIDE then pyIntDiv va vb
                  else pyPow va vb
              | _, _ => .error "One target on opperand is None"
    | some .COMPARATOR =>
        match n.node_a, n.node_b with
        | some a, some b =>
            (match comparatorMap (n.value.getD "") with
             | none => .error "AttributeError: comparator"
             | some c => do
                let va ← evalNode fuel env a
                -- the branch order follows `ComparatorNode.exec`; the second
                -- NOT_EQUAL test there (mapping to >=) is dead code.
                if c = .EQUAL then do
                  let vb ← evalNode fuel env b
                  .ok (.vbool (pyEq va vb))
                else if c = .NOT_EQUAL then do
                  let vb ← evalNode fuel env b
                  .ok (.vbool (!(pyEq va vb)))
                else if c = .LT then do
                  let vb ← evalNode fuel env b
                  pyLt va vb
                else if c = .LTE then do
                  let vb ← evalNode fuel env b
                  pyLe va vb
                else if c = .GT then do
                  let vb ← evalNode fuel env b
                  pyGt va vb
                else if c = .GTE then do
                  let vb ← evalNode fuel env b
                  pyGe va vb
                else if c = .NOT_EQUAL then do
                  let vb ← evalNode fuel env b
                  pyGe va vb
                else if c = .OR then
                  -- Python `or` short-circuits and returns an operand
                  if truthy va then .ok va else evalNode fuel env b
                else if c = .STRICT_OR then
                  if truthy va then .ok (.vbool true)
                  else do
                    let vb ← evalNode fuel env b
                    .ok (.vbool (truthy vb))
                else if c = .AND then
                  if truthy va then evalNode fuel env b else .ok va
                else if c = .STRICT_AND then
                  if !(truthy va) then .ok (.vbool false)
                  else do
                    let vb ← evalNode fuel env b
                    .ok (.vbool (truthy vb))
                else .error "Invalid comparator")
        | _, _ => .error "1 of 2 targets on comparator is None"
    | some .FUNCTION =>
        match functionMap (n.value.getD "") with
        | none => .error "AttributeError: function"
        | some f =>
          if f = .TODAY then
            -- `lambda : datetime.now()` takes no keyword arguments
            if (env : List (String × Value)).isEmpty then
              .ok (.dateVal .clockNow 0 0 0)
            else .error "TypeError: lambda got an unexpected keyword argument"
          else if (n.arguments).isEmpty then
            .error "Function argument is None"
          else
            match n.arguments with
            | [] => .error "Function argument is None"
            | a0 :: restArgs =>
              if f = .AS_DATE then do
                let v0 ← evalNode fuel env a0
                let vfmt ← match restArgs with
                  | [] => .ok (Value.vstr "%m/%d/%Y")
                  | a1 :: _ => evalNode fuel env a1
                match v0, vfmt with
                | .vstr s, .vstr fmt => .ok (.dateVal (.parsedDate s fmt) 0 0 0)
                | _, _ => .error "TypeError: strptime() argument must be str"
              else if f = .SECONDS then do
                let v0 ← evalNode fuel env a0
                match asNum v0 with
                | some q => .ok (.tdelta q)
                | none => .error "TypeError: unsupported type for timedelta"
              else if f = .MINUTES then do
                let v0 ← evalNode fuel env a0
                match asNum v0 with
                | some q => .ok (.tdelta (qMul q (qOfNat 60)))
                | none => .error "TypeError: unsupported type for timedelta"
              else if f = .HOURS then do
                let v0 ← evalNode fuel env a0
                match asNum v0 with
                | some q => .ok (.tdelta (qMul q (qOfNat 3600)))
                | none => .error "TypeError: unsupported type for timedelta"
              else if f = .DAYS then do
                let v0 ← evalNode fuel env a0
                match asNum v0 with
                | some q => .ok (.tdelta (qMul q (qOfNat 86400)))
                | none => .error "TypeError: unsupported type for timedelta"
              else if f = .WEEKS then do
                let v0 ← evalNode fuel env a0
                match asNum v0 with
                | some q => .ok (.tdelta (qMul q (qOfNat 604800)))
                | none => .error "TypeError: unsupported type for timedelta"
              else if f = .MONTHS then do
                let v0 ← evalNode fuel env a0
                match asNum v0 with
                | some q => .ok (.rdelta q 0)
                | none => .error "TypeError: unsupported type for relativedelta"
              else if f = .YEARS then do
                let v0 ← evalNode fuel env a0
                match asNum v0 with
                | some q => .ok (.rdelta 0 q)
                | none => .error "TypeError: unsupported type for relativedelta"
              else if f = .SUM then
                sumArgs (evalNode fuel env) (.num 0) n.arguments
              else if f = .AVG then do
                let s ← sumArgs (evalNode fuel env) (.num 0) n.arguments
                pyDiv s (.num (qOfNat (n.arguments).length))
              else if f = .LOG10 then do
                let v0 ← evalNode fuel env a0
                match asNum v0 with
                | some q =>
                    if q.num ≤ 0 then .error "ValueError: math domain error"
                    else .ok (.transc "log" [q, 10])
                | none => .error "TypeError: must be a real number"
              else if f = .NATURAL_LOG then do
                let v0 ← evalNode fuel env a0
                match asNum v0 with
                | some q =>
                    if q.num ≤ 0 then .error "ValueError: math domain error"
                    else .ok (.transc "ln" [q])
                | none => .error "TypeError: must be a real number"
              else if f = .LOG then do
                let v0 ← evalNode fuel env a0
                let vb ← match restArgs with
                  | [] => .ok (Value.num 10)
                  | a1 :: _ => evalNode fuel env a1
                match asNum v0, asNum vb with
                | some q, some qb =>
                    if q.num ≤ 0 ∨ qb.num ≤ 0 then .error "ValueError: math domain error"
                    else if qb = 1 then
                      .error "ZeroDivisionError: float division by zero"
                    else .ok (.transc "log" [q, qb])
                | _, _ => .error "TypeError: must be a real number"
              else if f = .SQUARE_ROOT then do
                let v0 ← evalNode fuel env a0
                pyPow v0 (.num (mkRat 1 2))
              else if f = .CHAR_LENGTH then do
                let v0 ← evalNode fuel env a0
                match v0 with
                | .vstr s => .ok (.num (qOfNat s.length))
                | _ => .error "TypeError: object has no len()"
              else if f = .NULL then do
                let v0 ← evalNode fuel env a0
                .ok (.vbool (pyEq v0 .vnone || pyEq v0 (.vstr "")))
              else do
                -- FunctionType.IN
                let v0 ← evalNode fuel env a0
                memberArgs (evalNode fuel env) v0 restArgs

/--
The single entry point, `tree.exec()(**environment)` after
`createExpressionTree(Node(), extractNodes(expression))`.  The fuel
`expression.length + 1` is ample: every group re-parse works on strictly
shorter text.
-/
def evaluate (expression : String) (env : Env) : Except String Value := do
  let ns ← extractNodes expression
  let t ← createExpressionTree emptyNode ns
  evalNode (expression.length + 1) env t

/-! ### Node shorthands used in the claims -/

/-- A `NumberNode` as produced by the tokenizer. -/
def numberNode (v : String) : PNode := .mk (some .NUMBER) (some v) none none []

/-- A `VariableNode` as produced by the tokenizer. -/
def variableNode (v : String) : PNode := .mk (some .VARIABLE) (some v) none none []

/-- A `TokenGroupNode` as produced by the tokenizer (value already stripped). -/
def groupNode (v : String) : PNode := .mk (some .TOKEN_GROUP) (some v) none none []

/-- A `ComparatorNode` with the given children. -/
def comparatorNode (v : String) (a b : Option PNode) : PNode :=
  .mk (some .COMPARATOR) (some v) a b []

/-- An `OperatorNode` with the given children. -/
def operatorNode (v : String) (a b : Option PNode) : PNode :=
  .mk (some .OPERATOR) (some v) a b []

/-- A `FunctionNode` with the given argument list. -/
def functionNode (v : String) (args : List PNode) : PNode :=
  .mk (some .FUNCTION) (some v) none none args

/-! ### Claims -/

/--
C1.  The claim states that building and evaluating `(2 + 3) * 4` returns 20
in every environment.  The code does not: a parenthesized group that is the
first token is attached into the child slot of the still-empty base node,
that base node (with value `None`) becomes the left operand of `*`, and its
`exec` raises "Can not execute on an empty node".  This theorem documents
the failing behavior of the code at the claimed input.
-/
theorem c1_paren_group_raises_empty_node_error (env : Env) :
    evaluate "(2 + 3) * 4" env = .error "Can not execute on an empty node" := rfl

/--
C2.  For `2 + 3 * 4` the rotation rule reproduces standard precedence:
evaluation returns 14 (and not 20) in every environment.
-/
theorem c2_standard_precedence (env : Env) :
    evaluate "2 + 3 * 4" env = .ok (.num 14) ∧
    ¬ evaluate "2 + 3 * 4" env = .ok (.num 20) := by
  refine ⟨rfl, ?_⟩
  intro h
  have h14 : evaluate "2 + 3 * 4" env = .ok (.num 14) := rfl
  rw [h14] at h
  injection h with h1
  injection h1 with h2
  exact absurd h2 (by decide)

/--
C3.  The claim states that a popped comparator token becomes the new root
with the current tree as its left child (with the right side rebuilt from
an empty base), so that `a < b < c` associates right-to-left.  The code
instead wires the comparator's children and then returns the previous
`base`, discarding the comparator node entirely: building `1 < 2` returns
the `NumberNode 1` subtree, and both `1 < 2` and `1 < 2 < 3` evaluate to 1
rather than a boolean.  (The right-side recursion is also seeded with the
next popped token, not an empty node.)  This theorem documents the failing
behavior of the code at the claimed inputs.
-/
theorem c3_comparator_never_becomes_root :
    createExpressionTree emptyNode
      [numberNode "1", comparatorNode "<" none none, numberNode "2"]
      = .ok (numberNode "1")
    ∧ evaluate "1 < 2" [] = .ok (.num 1)
    ∧ evaluate "1 < 2 < 3" [] = .ok (.num 1) := ⟨rfl, rfl, rfl⟩

/--
C4.  For every pair of operands that both evaluate to values, evaluating
the comparator `!=` returns the standard not-equal comparison of the two
evaluated values; the first `NOT_EQUAL` branch of `ComparatorNode.exec`
returns, so the later duplicate branch (mapping to `>=`) is dead code.
-/
theorem c4_not_equal_is_standard (fuel : Nat) (env : Env) (a b : PNode)
    (va vb : Value) (ha : evalNode fuel env a = .ok va)
    (hb : evalNode fuel env b = .ok vb) :
    evalNode (fuel + 1) env (comparatorNode "!=" (some a) (some b))
      = .ok (.vbool (!(pyEq va vb))) := by
  have h0 : evalNode (fuel + 1) env (comparatorNode "!=" (some a) (some b)) =
      (evalNode fuel env a).bind (fun va =>
        (evalNode fuel env b).bind (fun vb => .ok (.vbool (!(pyEq va vb))))) := rfl
  rw [h0, ha, hb]
  rfl

/-- Witness for C4 at concrete operands `1 != 2`. -/
theorem c4_not_equal_is_standard_witness :
    evalNode 2 [] (comparatorNode "!=" (some (numberNode "1"))
      (some (numberNode "2"))) = .ok (.vbool true) :=
  c4_not_equal_is_standard 1 [] (numberNode "1") (numberNode "2")
    (.num 1) (.num 2) rfl rfl

/--
C5 counterexample.  The claim states that every function requiring N
arguments checks the argument list length against N and raises
MissingArgument otherwise, and in particular that `in` with a single
argument raises rather than returning a value.  In the code, `in` with one
argument tests membership in the empty remainder list and returns `False`.
-/
theorem c5_in_with_one_argument_returns_false :
    evalNode 3 [] (functionNode "in" [groupNode "2"]) = .ok (.vbool false) := rfl

/--
C5 amended.  `FunctionNode.exec` performs a single length check: any
function other than `today` with an empty argument list raises
"Function argument is None"; beyond that no per-function arity check
exists, and `in` with a single argument returns `False` instead of raising.
-/
theorem c5_only_nonempty_argument_check (fuel : Nat) (env : Env) (v : String)
    (f : FunctionType) (hf : functionMap v = some f) (hne : f ≠ .TODAY) :
    evalNode (fuel + 1) env (functionNode v []) =
      .error "Function argument is None"
    ∧ evalNode 3 [] (functionNode "in" [groupNode "2"]) = .ok (.vbool false) := by
  refine ⟨?_, rfl⟩
  have h0 : evalNode (fuel + 1) env (functionNode v []) =
      match functionMap v with
      | none => .error "AttributeError: function"
      | some f =>
          if f = .TODAY then
            if (env : List (String × Value)).isEmpty then
              .ok (.dateVal .clockNow 0 0 0)
            else .error "TypeError: lambda got an unexpected keyword argument"
          else .error "Function argument is None" := rfl
  rw [h0, hf]
  simp [hne]

/-- Witness for C5 at the `sum` function with no arguments. -/
theorem c5_only_nonempty_argument_check_witness :
    evalNode 1 [] (functionNode "sum" []) = .error "Function argument is None"
    ∧ evalNode 3 [] (functionNode "in" [groupNode "2"]) = .ok (.vbool false) :=
  c5_only_nonempty_argument_check 0 [] "sum" .SUM rfl (by decide)

/--
C6 counterexample.  The claim states that `+-5` (absolute value of a
negative) evaluates to 5.  The tokenizer's operator class `[^a-z0-9...]+`
greedily captures `+-` as a single token, and `OperatorNode.__init__`
rejects it: evaluation raises "Invalid Operator: +-" instead of returning 5.
-/
theorem c6_plus_minus_five_invalid_operator :
    evaluate "+-5" [] = .error "Invalid Operator: +-" ∧
    ¬ evaluate "+-5" [] = .ok (.num 5) := by
  refine ⟨rfl, ?_⟩
  intro h
  have he : evaluate "+-5" [] = .error "Invalid Operator: +-" := rfl
  rw [he] at h
  exact Except.noConfusion h

/--
C6 amended.  `-5` evaluates to -5 in every environment; `+-5` raises
"Invalid Operator: +-" in every environment, because `+-` is tokenized as
one operator symbol that is not in the registry.
-/
theorem c6_unary_forms_amended (env : Env) :
    evaluate "-5" env = .ok (.num (-5)) ∧
    evaluate "+-5" env = .error "Invalid Operator: +-" := ⟨rfl, rfl⟩

/--
C7.  In every environment that does not bind the variable name, evaluating
the `VariableNode` yields the `None` sentinel (not an error), and
evaluating `variable + 1` on that sentinel raises a TypeError from the
`+` operation rather than silently producing a number.
-/
theorem c7_unbound_variable_sentinel_then_add_raises (fuel : Nat) (env : Env)
    (x : String) (h : envGet env x = none) :
    evalNode (fuel + 1) env (variableNode x) = .ok .vnone ∧
    evalNode (fuel + 2) env
      (operatorNode "+" (some (variableNode x)) (some (numberNode "1")))
      = .error "TypeError: unsupported operand type(s) for +" := by
  constructor
  · have h0 : evalNode (fuel + 1) env (variableNode x) =
        .ok ((envGet env x).getD .vnone) := rfl
    rw [h0, h]
    rfl
  · have h0 : evalNode (fuel + 2) env
        (operatorNode "+" (some (variableNode x)) (some (numberNode "1"))) =
        pyAdd ((envGet env x).getD .vnone) (.num 1) := rfl
    rw [h0, h]
    rfl

/-- Witness for C7 at the empty environment and variable `x`. -/
theorem c7_unbound_variable_sentinel_then_add_raises_witness :
    evalNode 1 [] (variableNode "x") = .ok .vnone ∧
    evalNode 2 []
      (operatorNode "+" (some (variableNode "x")) (some (numberNode "1")))
      = .error "TypeError: unsupported operand type(s) for +" :=
  c7_unbound_variable_sentinel_then_add_raises 0 [] "x" rfl

/--
C8.  `5!` evaluates to 120 in every environment: the literal is parsed by
`float` (`NumberNode` evaluates to the number 5) and `math.factorial` is
applied to the left operand of `!`.
-/
theorem c8_factorial_five (env : Env) :
    evaluate "5!" env = .ok (.num 120) ∧
    evalNode 1 env (numberNode "5") = .ok (.num 5) := ⟨rfl, rfl⟩

/--
C9.  Evaluation is deterministic and mutation-free: evaluating the same
tree twice with the same environment (and the same fuel) yields identical
results, and the result of evaluating a Group node depends only on its
stored raw text — two group nodes with the same text but arbitrary other
fields evaluate identically, since the text is re-tokenized and re-built
afresh on each call and no node state is consulted or changed.  (The
wall-clock reading `today` is modelled symbolically, so it is deterministic
here by construction, matching the claim's exclusion of wall-clock
functions.)
-/
theorem c9_evaluation_deterministic (fuel : Nat) (env : Env) (t g1 g2 : PNode)
    (h1 : g1.ntype = some NodeType.TOKEN_GROUP)
    (h2 : g2.ntype = some NodeType.TOKEN_GROUP)
    (hv : g1.value = g2.value) :
    evalNode fuel env t = evalNode fuel env t ∧
    evalNode fuel env g1 = evalNode fuel env g2 := by
  refine ⟨rfl, ?_⟩
  cases g1 with
  | mk t1 v1 a1 b1 args1 =>
    cases g2 with
    | mk t2 v2 a2 b2 args2 =>
      simp only [PNode.ntype, PNode.value] at h1 h2 hv
      subst h1
      subst h2
      subst hv
      cases fuel with
      | zero => rfl
      | succ f => rfl

/-- Witness for C9: a number node, and two group nodes sharing the raw text
"1" but differing in their other fields. -/
theorem c9_evaluation_deterministic_witness :
    evalNode 3 [] (numberNode "7") = evalNode 3 [] (numberNode "7") ∧
    evalNode 3 [] (groupNode "1") =
      evalNode 3 [] (PNode.mk (some .TOKEN_GROUP) (some "1")
        (some emptyNode) (some emptyNode) [emptyNode]) :=
  c9_evaluation_deterministic 3 [] (numberNode "7") (groupNode "1")
    (PNode.mk (some .TOKEN_GROUP) (some "1")
      (some emptyNode) (some emptyNode) [emptyNode]) rfl rfl rfl

/--
C10.  The tokenizer strips every leading run of opening parentheses and
every trailing run of closing parentheses from a captured group (not just
one enclosing pair): for the balanced input `((1+2)*(3+4))` the stored raw
group text is the unbalanced string `1+2)*(3+4`, and for `((7))` both pairs
are stripped.
-/
theorem c10_group_strips_all_paren_runs :
    stripGroupParens "((1+2)*(3+4))" = "1+2)*(3+4" ∧
    extractNodes "((1+2)*(3+4))" = .ok [groupNode "1+2)*(3+4"] ∧
    extractNodes "((7))" = .ok [groupNode "7"] := ⟨rfl, rfl, rfl⟩

end ExpressionParser
